import Mathlib

/-!
Verification development for the AlgoAtlas multi-language solution
verification engine (src/algo_atlas/core/verifier.py, core/test_parser.py,
core/timeout.py, languages/*.py).

Modelling conventions:
* Python values flowing through the verifier (parsed test arguments,
  expected outputs, actual results) are modelled by the inductive `Value`
  covering None, bool, int, str, list and string-keyed dict.  Floats,
  tuples, sets and other objects never occur in the properties under
  study and are outside the modelled subset.
* Library primitives that execute Python (ast.parse, exec, getattr,
  regular-expression search, subprocess.run, signal/threading) are
  abstracted as oracle fields of runtime structures; all verifier logic
  written in the repository itself is translated directly.
* `json.loads` and `ast.literal_eval` are modelled by an executable
  recursive-descent parser over the JSON / Python literal subset used by
  the verifier (ints, strings without escapes, lists, dicts with string
  keys, true/false/null resp. True/False/None).  Inputs outside this
  subset (floats, escaped strings, tuples) make the modelled parser fail,
  which the verifier turns into the raw-string fallback.
-/

namespace AlgoAtlas

/-- Python runtime value as handled by the verifier (JSON-like subset). -/
inductive Value where
  | null : Value
  | bool (b : Bool) : Value
  | int (n : Int) : Value
  | str (s : String) : Value
  | list (xs : List Value) : Value
  | dict (kvs : List (String × Value)) : Value
deriving Repr, Inhabited

/-- Association-list lookup used to model Python dict access. -/
def lookupStr (k : String) : List (String × Value) → Option Value
  | [] => none
  | (k2, v) :: rest => if k == k2 then some v else lookupStr k rest

/-- Numeric view of a value: Python treats bool as int for comparisons. -/
def numView : Value → Option Int
  | .int n => some n
  | .bool b => some (if b then 1 else 0)
  | _ => none

mutual
/-- Python structural equality on the modelled value subset, including the
bool/int numeric coercion and key-based (order-insensitive) dict equality. -/
def pyEq : Value → Value → Bool
  | .str a, .str b => a == b
  | .list as, .list bs => pyEqList as bs
  | .dict a, .dict b => a.length == b.length && pyEqDict a b
  | .null, .null => true
  | a, b =>
    match numView a, numView b with
    | some x, some y => x == y
    | _, _ => false

/-- Elementwise Python equality of two lists. -/
def pyEqList : List Value → List Value → Bool
  | [], [] => true
  | a :: as, b :: bs => pyEq a b && pyEqList as bs
  | _, _ => false

/-- Every key of the first dict maps to a Python-equal value in the second. -/
def pyEqDict : List (String × Value) → List (String × Value) → Bool
  | [], _ => true
  | (k, v) :: rest, b =>
    (match lookupStr k b with
     | some w => pyEq v w
     | none => false) && pyEqDict rest b
end

mutual
/-- Python three-way comparison; `none` models a TypeError from an
unorderable pair (the behaviour `sorted` turns into an exception). -/
def pyCmp : Value → Value → Option Ordering
  | .str a, .str b => some (compare a b)
  | .list as, .list bs => pyCmpList as bs
  | a, b =>
    match numView a, numView b with
    | some x, some y => some (compare x y)
    | _, _ => none

/-- Python list ordering: step over Python-equal prefixes, decide at the
first non-equal pair, shorter list first on exhaustion. -/
def pyCmpList : List Value → List Value → Option Ordering
  | [], [] => some .eq
  | [], _ :: _ => some .lt
  | _ :: _, [] => some .gt
  | a :: as, b :: bs =>
    if pyEq a b then pyCmpList as bs
    else
      match pyCmp a b with
      | some o => some o
      | none => none
end

/-- Stable insertion of a value into a sorted list; `none` on an
unorderable comparison. -/
def insertSorted (x : Value) : List Value → Option (List Value)
  | [] => some [x]
  | y :: ys =>
    match pyCmp x y with
    | none => none
    | some .lt => some (x :: y :: ys)
    | some _ =>
      match insertSorted x ys with
      | some zs => some (y :: zs)
      | none => none

/-- Model of Python `sorted` on the modelled values: a stable sort that
fails (TypeError) as soon as an unorderable pair must be compared. -/
def pySorted : List Value → Option (List Value)
  | [] => some []
  | x :: xs =>
    match pySorted xs with
    | some ys => insertSorted x ys
    | none => none

mutual
/-- Python `str`/`repr` of a modelled value (string escaping is not
modelled; the verifier only uses this for dedup keys). -/
def pyRepr : Value → String
  | .null => "None"
  | .bool b => if b then "True" else "False"
  | .int n => toString n
  | .str s => "'" ++ s ++ "'"
  | .list xs => "[" ++ pyReprList xs ++ "]"
  | .dict kvs => "\x7b" ++ pyReprDict kvs ++ "\x7d"

/-- Comma-separated reprs of list elements. -/
def pyReprList : List Value → String
  | [] => ""
  | [x] => pyRepr x
  | x :: xs => pyRepr x ++ ", " ++ pyReprList xs

/-- Comma-separated reprs of dict items. -/
def pyReprDict : List (String × Value) → String
  | [] => ""
  | [(k, v)] => "'" ++ k ++ "': " ++ pyRepr v
  | (k, v) :: kvs => "'" ++ k ++ "': " ++ pyRepr v ++ ", " ++ pyReprDict kvs
end

/-- Python `str` of an argument list, the dedup key of the orchestrator. -/
def strOfArgs (args : List Value) : String := pyRepr (.list args)

mutual
/-- Model of `json.dumps` on the modelled subset (used to serialise
arguments into the JavaScript test harness). -/
def jsonDumps : Value → String
  | .null => "null"
  | .bool b => if b then "true" else "false"
  | .int n => toString n
  | .str s => "\"" ++ s ++ "\""
  | .list xs => "[" ++ jsonDumpsList xs ++ "]"
  | .dict kvs => "\x7b" ++ jsonDumpsDict kvs ++ "\x7d"

/-- Comma-separated dumps of list elements. -/
def jsonDumpsList : List Value → String
  | [] => ""
  | [x] => jsonDumps x
  | x :: xs => jsonDumps x ++ ", " ++ jsonDumpsList xs

/-- Comma-separated dumps of dict items. -/
def jsonDumpsDict : List (String × Value) → String
  | [] => ""
  | [(k, v)] => "\"" ++ k ++ "\": " ++ jsonDumps v
  | (k, v) :: kvs => "\"" ++ k ++ "\": " ++ jsonDumps v ++ ", " ++ jsonDumpsDict kvs
end

/-- Drop leading JSON whitespace characters. -/
def skipWsC : List Char → List Char :=
  List.dropWhile (fun c => c == ' ' || c == '\t' || c == '\n' || c == '\r')

/-- Numeric value of a digit string. -/
def natOfDigits : List Char → Nat :=
  List.foldl (fun n c => n * 10 + (c.toNat - 48)) 0

/-- Parse an integer literal (optional minus sign, no leading zeros, as in
JSON and Python int literals); floats are outside the modelled subset. -/
def parseIntLit (cs : List Char) : Option (Value × List Char) :=
  let (neg, cs1) :=
    match cs with
    | '-' :: rest => (true, rest)
    | _ => (false, cs)
  let ds := cs1.takeWhile Char.isDigit
  let rest := cs1.dropWhile Char.isDigit
  if ds.isEmpty then none
  else if ds.length > 1 && ds.headD '0' == '0' then none
  else
    let n : Int := Int.ofNat (natOfDigits ds)
    some (.int (if neg then -n else n), rest)

/-- Collect the characters of a quoted string up to the closing quote;
escape sequences are outside the modelled subset. -/
def strChars (q : Char) : List Char → Option (List Char × List Char)
  | [] => none
  | c :: rest =>
    if c == q then some ([], rest)
    else if c == '\\' then none
    else
      match strChars q rest with
      | some (s, r) => some (c :: s, r)
      | none => none

/-- Recognise a keyword literal: true/false/null in JSON mode,
True/False/None in Python-literal mode. -/
def kwParse (py : Bool) (cs : List Char) : Option (Value × List Char) :=
  let kws : List (List Char × Value) :=
    if py then [("True".toList, .bool true), ("False".toList, .bool false), ("None".toList, .null)]
    else [("true".toList, .bool true), ("false".toList, .bool false), ("null".toList, .null)]
  kws.foldr
    (fun (kw, v) acc =>
      if kw.isPrefixOf cs then some (v, cs.drop kw.length) else acc)
    none

mutual
/-- Fueled recursive-descent parser for the JSON / Python literal subset;
fuel bounds the nesting depth (each level consumes a character first). -/
def parseVal (py : Bool) : Nat → List Char → Option (Value × List Char)
  | 0, _ => none
  | fuel + 1, cs0 =>
    match skipWsC cs0 with
    | [] => none
    | c :: rest =>
      if c == '[' then
        match skipWsC rest with
        | ']' :: r2 => some (.list [], r2)
        | cs2 => parseElems py fuel cs2 []
      else if c == '\x7b' then
        match skipWsC rest with
        | '\x7d' :: r2 => some (.dict [], r2)
        | cs2 => parseMembers py fuel cs2 []
      else if c == '"' then
        match strChars '"' rest with
        | some (s, r) => some (.str (String.mk s), r)
        | none => none
      else if c == '-' || c.isDigit then parseIntLit (c :: rest)
      else kwParse py (c :: rest)

/-- Parse the remaining elements of a non-empty array. -/
def parseElems (py : Bool) : Nat → List Char → List Value → Option (Value × List Char)
  | 0, _, _ => none
  | fuel + 1, cs, acc =>
    match parseVal py fuel cs with
    | none => none
    | some (v, rest) =>
      match skipWsC rest with
      | ',' :: r2 => parseElems py fuel r2 (acc ++ [v])
      | ']' :: r2 => some (.list (acc ++ [v]), r2)
      | _ => none

/-- Parse the remaining members of a non-empty object (string keys). -/
def parseMembers (py : Bool) : Nat → List Char → List (String × Value) →
    Option (Value × List Char)
  | 0, _, _ => none
  | fuel + 1, cs, acc =>
    match skipWsC cs with
    | '"' :: r1 =>
      match strChars '"' r1 with
      | none => none
      | some (kcs, r2) =>
        match skipWsC r2 with
        | ':' :: r3 =>
          match parseVal py fuel r3 with
          | none => none
          | some (v, r4) =>
            match skipWsC r4 with
            | ',' :: r5 => parseMembers py fuel r5 (acc ++ [(String.mk kcs, v)])
            | '\x7d' :: r5 => some (.dict (acc ++ [(String.mk kcs, v)]), r5)
            | _ => none
        | _ => none
    | _ => none
end

/-- Run the literal parser on a whole string, requiring full consumption
up to trailing whitespace. -/
def runParse (py : Bool) (s : String) : Option Value :=
  match parseVal py (s.length + 1) s.toList with
  | some (v, rest) => if (skipWsC rest).isEmpty then some v else none
  | none => none

/-- Model of `json.loads` on the modelled subset. -/
def json_loads (s : String) : Option Value := runParse false s

/-- Model of `ast.literal_eval` on the modelled subset. -/
def literal_eval (s : String) : Option Value := runParse true s

/-- Three-tier value parsing shared by the test-input parsers: JSON first,
then Python literal, then the raw string as a graceful fallback. -/
def parseToken (s : String) : Value :=
  match json_loads s with
  | some v => v
  | none =>
    match literal_eval s with
    | some v => v
    | none => .str s

/-- Whitespace characters stripped by Python `str.strip` (ASCII subset). -/
def pyIsSpace (c : Char) : Bool :=
  c == ' ' || c == '\t' || c == '\n' || c == '\r' || c == '\x0b' || c == '\x0c'

/-- Model of Python `str.strip()` (ASCII whitespace). -/
def pyStrip (s : String) : String :=
  String.mk (((s.toList.dropWhile pyIsSpace).reverse.dropWhile pyIsSpace).reverse)

/-- Model of Python `str.startswith`. -/
def strStartsWith (s pre : String) : Bool :=
  pre.toList.isPrefixOf s.toList

/-- Model of Python `str.endswith`. -/
def strEndsWith (s suf : String) : Bool :=
  suf.toList.isSuffixOf s.toList

/-- Membership of a single character (Python `c in s`). -/
def strHasChar (s : String) (c : Char) : Bool :=
  s.toList.contains c

/-- Substring scan underlying the Python `in` operator on strings. -/
def hasSub (needle : List Char) : List Char → Bool
  | [] => needle.isEmpty
  | c :: cs => needle.isPrefixOf (c :: cs) || hasSub needle cs

/-- Model of Python `needle in hay` on strings. -/
def strContains (hay needle : String) : Bool :=
  if needle == "" then true else hasSub needle.toList hay.toList

/-- Fueled splitter underlying `pySplitOn` (fuel bounds the scan). -/
def splitFuel (sep : List Char) : Nat → List Char → List (List Char)
  | 0, cs => [cs]
  | fuel + 1, cs =>
    match cs with
    | [] => [[]]
    | c :: rest =>
      if !sep.isEmpty && sep.isPrefixOf (c :: rest) then
        [] :: splitFuel sep fuel ((c :: rest).drop sep.length)
      else
        match splitFuel sep fuel rest with
        | g :: gs => (c :: g) :: gs
        | [] => [[c]]

/-- Model of Python `str.split(sep)` with a non-empty separator. -/
def pySplitOn (s sep : String) : List String :=
  if sep == "" then [s]
  else (splitFuel sep.toList (s.length + 1) s.toList).map String.mk

/-- Apply a parser to each non-blank stripped line, in order (the shared
loop shape of both line-per-argument parsers). -/
def parseLines (f : String → Value) : List String → List Value
  | [] => []
  | l :: ls =>
    let t := pyStrip l
    if t == "" then parseLines f ls else f t :: parseLines f ls

namespace TestParser

/-- Inner loop of the bracket-depth-aware comma split of
`_split_leetcode_input` (core/test_parser.py lines 61-80). -/
def splitLeetAux : List Char → Int → List Char → List String → List String
  | [], _, current, parts =>
    if current.isEmpty then parts else parts ++ [String.mk current]
  | c :: cs, depth, current, parts =>
    if c == '(' || c == '[' || c == '\x7b' then
      splitLeetAux cs (depth + 1) (current ++ [c]) parts
    else if c == ')' || c == ']' || c == '\x7d' then
      splitLeetAux cs (depth - 1) (current ++ [c]) parts
    else if c == ',' && depth == 0 then
      splitLeetAux cs depth [] (parts ++ [String.mk current])
    else
      splitLeetAux cs depth (current ++ [c]) parts

/-- Split a LeetCode assignment-list input on commas, ignoring commas
nested inside brackets (core/test_parser.py `_split_leetcode_input`). -/
def _split_leetcode_input (input_str : String) : List String :=
  splitLeetAux input_str.toList 0 [] []

/-- Single-value parsing of core/test_parser.py `_parse_single_value`:
strip, then JSON, then Python literal, then the raw string. -/
def _parse_single_value (value : String) : Value :=
  parseToken (pyStrip value)

/-- Everything after the first `=`, as produced by Python
`part.split("=", 1)[1]`. -/
def afterFirstEq (s : String) : String :=
  String.intercalate "=" ((pySplitOn s "=").drop 1)

/-- Loop over assignment-list parts: keep parts containing `=`, parse the
stripped right-hand side of each (core/test_parser.py lines 27-36). -/
def parseAssignParts : List String → List Value
  | [] => []
  | p :: ps =>
    let q := pyStrip p
    if strHasChar q '=' then
      _parse_single_value (pyStrip ( afterFirstEq q)) :: parseAssignParts ps
    else parseAssignParts ps

/-- Dialect-detecting test-input parser of core/test_parser.py
`_parse_test_input`: assignment-list when the stripped block contains `=`
and does not start with `[`; line-per-argument otherwise. -/
def _parse_test_input (input_str : String) : List Value :=
  let t := pyStrip input_str
  if strHasChar t '=' && ! strStartsWith t "[" then
    parseAssignParts ( _split_leetcode_input t)
  else
    parseLines _parse_single_value (pySplitOn t "\n")

/-- Expected-output parsing: the same three-tier fallback applied to the
whole stripped block as one value (core/test_parser.py lines 111-128). -/
def _parse_expected_output (output_str : String) : Value :=
  parseToken (pyStrip output_str)

end TestParser

namespace Verifier

/-- Observable outcome of `ast.parse` on a source text: `none` when the
source parses, otherwise the raised SyntaxError's message attribute, its
`str()` rendering and its line number. -/
structure SynErr where
  msg : Option String
  full : String
  lineno : Option Nat
deriving Repr

/-- Result of a syntax check (verifier.py `SyntaxResult`). -/
structure SyntaxResult where
  valid : Bool
  error_message : Option String := none
  error_line : Option Nat := none
deriving Repr, DecidableEq

/-- Result of a single test case execution (verifier.py `TestResult`).
`actual` is `Value.null` on every failure path, mirroring `actual=None`;
`error` carries a `Value` because the JavaScript adapter can store a
non-string JSON payload there. -/
structure TestResult where
  passed : Bool
  input_args : List Value
  expected : Value
  actual : Value
  error : Option Value := none
deriving Repr

/-- Result of full verification (verifier.py `VerificationResult`, with
`__post_init__` replacing a missing list by `[]`). -/
structure VerificationResult where
  syntax_valid : Bool
  syntax_error : Option String := none
  tests_run : Nat := 0
  tests_passed : Nat := 0
  test_results : List TestResult := []
deriving Repr

/-- Derived `all_passed` property of a verification result. -/
def VerificationResult.all_passed (r : VerificationResult) : Bool :=
  r.syntax_valid && decide (0 < r.tests_run) && r.tests_passed == r.tests_run

/-- Outcome of running the solution method under the timeout guard. -/
inductive RunOutcome where
  | ok (v : Value)
  | timeout
  | exn (msg : String)
deriving Repr

/-- Oracle bundle for the Python primitives the verifier calls out to:
`ast.parse`, exec-based class extraction, AST method discovery and
parameter counting, instantiation via `getattr`, the guarded method call,
and the configured execution timeout.  `Cls` and `Mth` stand for the
opaque Python class and bound-method objects. -/
structure PyRuntime (Cls Mth : Type) where
  ast_parse : String → Option SynErr
  extract_solution_class : String → Option Cls
  extract_method_name : String → Option String
  count_method_params : String → Nat
  instantiate : Cls → String → Except String Mth
  guarded_run : Mth → List Value → Nat → RunOutcome
  execution_timeout : Nat

variable {Cls Mth : Type}

/-- Python-style rendering of an optional line number (f-string `{x}`). -/
def fmtOptNat : Option Nat → String
  | some n => toString n
  | none => "None"

/-- Python-style rendering of an optional string (f-string `{x}`). -/
def fmtOptStr : Option String → String
  | some s => s
  | none => "None"

/-- Syntax check of verifier.py `check_syntax`: valid when `ast.parse`
succeeds, else the error's message (or its `str()` when the message is
falsy) and line number. -/
def check_syntax (R : PyRuntime Cls Mth) (code : String) : SyntaxResult :=
  match R.ast_parse code with
  | none => { valid := true }
  | some e =>
    { valid := false
      error_message := some (match e.msg with
        | some m => if m == "" then e.full else m
        | none => e.full)
      error_line := e.lineno }

/-- The orchestrator's syntax-failure message,
f"Line \x7bsyntax_result.error_line\x7d: \x7bsyntax_result.error_message\x7d". -/
def syntaxErrorLine (sr : SyntaxResult) : String :=
  "Line " ++ fmtOptNat sr.error_line ++ ": " ++ fmtOptStr sr.error_message

/-- Line-per-argument test-input parser of verifier.py `_parse_test_input`
(lines 117-147): strip the block, then parse each non-blank line through
the JSON / literal / raw-string tiers. -/
def _parse_test_input (input_str : String) : List Value :=
  parseLines parseToken (pySplitOn (pyStrip input_str) "\n")

/-- Expected-output parser of verifier.py `_parse_expected_output`. -/
def _parse_expected_output (output_str : String) : Value :=
  parseToken (pyStrip output_str)

/-- Result comparator of verifier.py `_compare_results`: direct equality,
then for equal-length lists an order-insensitive comparison via sorting,
skipped when sorting raises. -/
def _compare_results (expected actual : Value) : Bool :=
  if pyEq expected actual then true
  else
    match expected, actual with
    | .list e, .list a =>
      if e.length != a.length then false
      else
        match pySorted e, pySorted a with
        | some se, some sa => pyEqList se sa
        | _, _ => false
    | _, _ => false

/-- Single-test execution of verifier.py `run_test_case`: resolve the
timeout, extract the Solution class and method, instantiate, run under
the timeout guard, and convert every failure into a failing TestResult. -/
def run_test_case (R : PyRuntime Cls Mth) (solution_code : String)
    (input_args : List Value) (expected_output : Value)
    (timeout : Option Nat := none) : TestResult :=
  let t := timeout.getD R.execution_timeout
  match R.extract_solution_class solution_code with
  | none =>
    { passed := false, input_args, expected := expected_output,
      actual := .null, error := some (.str "Could not extract Solution class") }
  | some cls =>
    match R.extract_method_name solution_code with
    | none =>
      { passed := false, input_args, expected := expected_output,
        actual := .null, error := some (.str "Could not find solution method") }
    | some mname =>
      match R.instantiate cls mname with
      | .error e =>
        { passed := false, input_args, expected := expected_output,
          actual := .null,
          error := some (.str ("Could not instantiate Solution: " ++ e)) }
      | .ok mth =>
        match R.guarded_run mth input_args t with
        | .ok actual =>
          { passed := _compare_results expected_output actual,
            input_args, expected := expected_output, actual, error := none }
        | .timeout =>
          { passed := false, input_args, expected := expected_output,
            actual := .null,
            error := some (.str ("Execution timed out after " ++ toString t ++ "s")) }
        | .exn msg =>
          { passed := false, input_args, expected := expected_output,
            actual := .null, error := some (.str msg) }

/-- Inner recursion of `_group_test_case_inputs`: full chunks of `n`
consecutive lines, dropping a short trailing group (`range(0, len, n)`
with the length-`n` filter); the fuel, instantiated above the number of
chunks, only forces termination. -/
def chunkAux (n : Nat) : Nat → List String → List (List String)
  | 0, _ => []
  | fuel + 1, cs =>
    if cs.length < n then []
    else cs.take n :: chunkAux n fuel (cs.drop n)

/-- Grouping of raw test-case lines into per-test chunks
(verifier.py `_group_test_case_inputs`). -/
def _group_test_case_inputs (test_cases : List String) (args_per_case : Nat) :
    List (List String) :=
  if args_per_case == 0 || test_cases.isEmpty then []
  else chunkAux args_per_case (test_cases.length + 1) test_cases

/-- An LeetCode example dict, with absent fields read as "" via
`example.get("input", "")` / `example.get("output", "")`. -/
structure Example where
  input : String
  output : String
deriving Repr, DecidableEq

/-- Mutable state of the orchestrator's loops: the dedup key set (insertion
order kept), accumulated results and counters. -/
structure RunState where
  tested : List String
  results : List TestResult
  run : Nat
  passed : Nat

/-- Usability test of one example: both fields non-empty
(`if not input_str or not output_str: continue`). -/
def usableExample (ex : Example) : Bool :=
  !(ex.input == "") && !(ex.output == "")

/-- Dedup key of an example: Python `str` of its parsed arguments. -/
def exampleKey (ex : Example) : String :=
  strOfArgs ( _parse_test_input ex.input)

/-- Dedup key of a grouped chunk of raw lines. -/
def chunkKey (lines : List String) : String :=
  strOfArgs ( _parse_test_input (String.intercalate "\n" lines))

/-- One iteration of the examples loop of verifier.py `run_test_cases`
(lines 462-483): skip unusable examples, record the dedup key, run the
test and bump the counters. -/
def exampleStep (R : PyRuntime Cls Mth) (code : String)
    (st : RunState) (ex : Example) : RunState :=
  if !(usableExample ex) then st
  else
    let input_args := _parse_test_input ex.input
    let expected := _parse_expected_output ex.output
    let tr := run_test_case R code input_args expected
    { tested := st.tested ++ [strOfArgs input_args]
      results := st.results ++ [tr]
      run := st.run + 1
      passed := st.passed + (if tr.passed then 1 else 0) }

/-- One iteration of the supplementary-cases loop of verifier.py
`run_test_cases` (lines 492-512): parse the chunk, skip it when its dedup
key was already seen, otherwise record the key, run and count. -/
def chunkStep (R : PyRuntime Cls Mth) (code : String)
    (st : RunState) (p : List String × Value) : RunState :=
  let input_args := _parse_test_input (String.intercalate "\n" p.1)
  let key := strOfArgs input_args
  if st.tested.contains key then st
  else
    let tr := run_test_case R code input_args p.2
    { tested := st.tested ++ [key]
      results := st.results ++ [tr]
      run := st.run + 1
      passed := st.passed + (if tr.passed then 1 else 0) }

/-- Orchestrator of verifier.py `run_test_cases`: syntax gate, examples
loop, then — when AI expected outputs and raw test-case lines are both
present (Python truthiness) and the parameter count is nonzero — the
supplementary loop over grouped chunks paired with expected outputs
(`enumerate` + `break` at `len(expected_outputs)` is the `zip`). -/
def run_test_cases (R : PyRuntime Cls Mth) (solution_code : String)
    (test_cases : List String) (examples : List Example)
    (expected_outputs : Option (List Value) := none) : VerificationResult :=
  let sr := check_syntax R solution_code
  if !sr.valid then
    { syntax_valid := false, syntax_error := some (syntaxErrorLine sr) }
  else
    let st1 := examples.foldl (exampleStep R solution_code)
      ⟨[], [], 0, 0⟩
    let eoL := expected_outputs.getD []
    let st2 :=
      if !eoL.isEmpty && !test_cases.isEmpty then
        let args_per_case := R.count_method_params solution_code
        if 0 < args_per_case then
          (( _group_test_case_inputs test_cases args_per_case).zip eoL).foldl
            (chunkStep R solution_code) st1
        else st1
      else st1
    { syntax_valid := true, syntax_error := none,
      tests_run := st2.run, tests_passed := st2.passed,
      test_results := st2.results }

/-- Entry point of verifier.py `verify_solution`: delegates directly to
`run_test_cases` (no language selector exists in its signature). -/
def verify_solution (R : PyRuntime Cls Mth) (solution_code : String)
    (test_cases : List String) (examples : List Example)
    (expected_outputs : Option (List Value) := none) : VerificationResult :=
  run_test_cases R solution_code test_cases examples expected_outputs

/-- Number of not-yet-seen keys in a list, scanning left to right starting
from an already-seen set (the effect of the orchestrator's dedup set on
the supplementary loop's counter). -/
def dedupCount : List String → List String → Nat
  | _, [] => 0
  | seen, k :: ks =>
    if seen.contains k then dedupCount seen ks
    else dedupCount (seen ++ [k]) ks + 1

end Verifier

namespace Timeout

/-- Black-box behaviour of the guarded callable: it returns a value after
`t` seconds, raises after `t` seconds, or never finishes.  The callable's
own handling of an injected signal exception is not modelled; a callable
raising the TimeoutError class itself counts as an ordinary `raises`. -/
inductive FuncBehavior where
  | returns (v : Value) (t : Nat)
  | raises (e : String) (t : Nat)
  | diverges
deriving Repr

/-- Observable outcome of a guarded call.  `timedOut` is the distinguished
TimeoutError raised by the deadline machinery; `hangs` models a call that
never returns (possible only with a disarmed alarm). -/
inductive Outcome where
  | ok (v : Value)
  | raised (e : String)
  | timedOut
  | hangs
deriving Repr

/-- Wall-clock completion time of the callable, if any. -/
def finishTime : FuncBehavior → Option Nat
  | .returns _ t => some t
  | .raises _ t => some t
  | .diverges => none

/-- Queue contents after the worker wrapper finishes: the result queue and
the exception queue of core/timeout.py lines 36-44. -/
def wrapperQueues : FuncBehavior → Option Value × Option String
  | .returns v _ => (some v, none)
  | .raises e _ => (none, some e)
  | .diverges => (none, none)

/-- Worker-thread strategy of core/timeout.py `_run_with_timeout_windows`:
join the worker for `timeout` seconds; if it is still alive raise the
timeout, else re-raise a queued exception, else return a queued result,
else return None. -/
def _run_with_timeout_windows (b : FuncBehavior) (timeout : Nat) : Outcome :=
  let alive :=
    match finishTime b with
    | none => true
    | some t => decide (timeout < t)
  if alive then .timedOut
  else
    match wrapperQueues b with
    | (_, some e) => .raised e
    | (some v, none) => .ok v
    | (none, none) => .ok .null

/-- Signal-deadline strategy of core/timeout.py `_run_with_timeout_unix`:
arm an alarm for `timeout` seconds and run the callable; the alarm
interrupts it with the timeout error.  `signal.alarm(0)` disarms the
alarm entirely, so with a zero timeout a diverging callable hangs. -/
def _run_with_timeout_unix (b : FuncBehavior) (timeout : Nat) : Outcome :=
  if timeout == 0 then
    match b with
    | .returns v _ => .ok v
    | .raises e _ => .raised e
    | .diverges => .hangs
  else
    match b with
    | .returns v t => if t ≤ timeout then .ok v else .timedOut
    | .raises e t => if t ≤ timeout then .raised e else .timedOut
    | .diverges => .timedOut

/-- Cross-platform dispatch of core/timeout.py `_run_with_timeout`, keyed
on the `sys.platform == "win32"` capability check. -/
def _run_with_timeout (isWin32 : Bool) (b : FuncBehavior) (timeout : Nat) :
    Outcome :=
  if isWin32 then _run_with_timeout_windows b timeout
  else _run_with_timeout_unix b timeout

end Timeout

namespace Langs

/-- Static language metadata (languages/base.py `LanguageInfo`). -/
structure LanguageInfo where
  name : String
  slug : String
  file_extension : String
  solution_filename : String
  code_fence : String
  leetcode_slugs : List String
deriving Repr, DecidableEq

/-- The three registered language adapters. -/
inductive LangId where
  | python
  | javascript
  | typescript
deriving Repr, DecidableEq

/-- The `info()` descriptor of each adapter (languages/python.py,
javascript.py, typescript.py). -/
def langInfo : LangId → LanguageInfo
  | .python =>
    ⟨"Python", "python3", ".py", "solution.py", "python", ["python3", "python"]⟩
  | .javascript =>
    ⟨"JavaScript", "javascript", ".js", "solution.js", "javascript", ["javascript"]⟩
  | .typescript =>
    ⟨"TypeScript", "typescript", ".ts", "solution.ts", "typescript", ["typescript"]⟩

/-- Overwriting insert into the slug registry (Python dict assignment). -/
def dictSet (d : List (String × LangId)) (k : String) (v : LangId) :
    List (String × LangId) :=
  if d.any (fun p => p.1 == k) then
    d.map (fun p => if p.1 == k then (k, v) else p)
  else d ++ [(k, v)]

/-- Registry lookup (Python `dict.get`). -/
def dictGet (d : List (String × LangId)) (k : String) : Option LangId :=
  match d.find? (fun p => p.1 == k) with
  | some p => some p.2
  | none => none

/-- Registration of one adapter under all its LeetCode slugs and its
primary slug (languages/__init__.py `register`). -/
def register (d : List (String × LangId)) (l : LangId) : List (String × LangId) :=
  dictSet ((langInfo l).leetcode_slugs.foldl (fun d s => dictSet d s l) d)
    (langInfo l).slug l

/-- The lazily built process-wide registry after `_ensure_registered`:
Python, then JavaScript, then TypeScript. -/
def _ensure_registered : List (String × LangId) :=
  register (register (register [] .python) .javascript) .typescript

/-- Slug lookup of languages/__init__.py `get_language`: returns the
adapter, or None when the slug is not registered (no exception). -/
def get_language (slug : String) : Option LangId :=
  dictGet _ensure_registered slug

/-- Outcome of one `subprocess.run` invocation: completion with exit code
and captured output, `subprocess.TimeoutExpired`, or `FileNotFoundError`
(the runtime binary vanished after the availability probe). -/
inductive SubprocOutcome where
  | completed (returncode : Int) (stdout : String) (stderr : String)
  | timeoutExpired
  | fileNotFound
deriving Repr, DecidableEq

/-- File-system effect of one adapter call on its transient source file:
whether the temp file was created, and whether it was deleted again
before the call returned. -/
structure FsTrace where
  created : Bool
  deleted : Bool
deriving Repr, DecidableEq

/-- Replace backslashes by forward slashes (Python `replace("\\", "/")`). -/
def replBack (s : String) : String :=
  String.mk (s.toList.map (fun c => if c == '\\' then '/' else c))

/-- Model of Python `int(str)`: optional sign and a non-empty digit run
after stripping whitespace (digit-group underscores are not modelled). -/
def pyInt (s : String) : Option Int :=
  let t := pyStrip s
  let (neg, ds) :=
    match t.toList with
    | '-' :: rest => (true, rest)
    | '+' :: rest => (false, rest)
    | cs => (false, cs)
  if ds.isEmpty || !ds.all Char.isDigit then none
  else
    let n : Int := Int.ofNat (natOfDigits ds)
    some (if neg then -n else n)

/-- Python `s.split(sep, maxsplit)`: at most `maxsplit` splits, the
remainder re-joined into the final part. -/
def splitAtMost (s sep : String) (maxsplit : Nat) : List String :=
  let ps := pySplitOn s sep
  if ps.length ≤ maxsplit + 1 then ps
  else ps.take maxsplit ++ [String.intercalate sep (ps.drop maxsplit)]

/-- Everything after the first occurrence of `sep`
(Python `s.split(sep, 1)[1]`; `s` itself must contain `sep`). -/
def afterFirstSep (s sep : String) : String :=
  String.intercalate sep ((pySplitOn s sep).drop 1)

/-- Oracle bundle for the JavaScript adapter: Node availability probe,
the generated temp-file name, the regex-based entry-point search, the
subprocess runner keyed on the command line, and the configured timeout. -/
structure JsRuntime where
  node_available : Bool
  tmp_name : String
  extract_method_name : String → Option String
  subprocess_run : List String → Nat → SubprocOutcome
  execution_timeout : Nat

/-- First matching line of the Node stderr scan for the error line number
(javascript.py lines 69-79): a line mentioning the temp path (slashes
normalised) or whose first colon-field ends in ".js". -/
def jsLineMatch (tmp line : String) : Bool :=
  strContains (replBack line) (replBack tmp) ||
    (strHasChar line ':' &&
      strEndsWith ((pySplitOn line ":").headD "") ".js")

/-- Error line extracted from the first matching stderr line: the integer
after its last colon, when that parses. -/
def jsErrorLine (tmp stderrS : String) : Option Nat :=
  match (pySplitOn stderrS "\n").find? (jsLineMatch tmp) with
  | none => none
  | some line =>
    let ps := pySplitOn line ":"
    if ps.length < 2 then none
    else
      match pyInt (ps.getLastD "") with
      | some n => if 0 ≤ n then some n.toNat else none
      | none => none

/-- Error message from the Node stderr: the first line starting with
"SyntaxError:", else the whole stripped stderr (javascript.py 82-85). -/
def jsErrorMsg (stderrS : String) : String :=
  match (pySplitOn stderrS "\n").find?
      (fun l => strStartsWith l "SyntaxError:") with
  | some l => l
  | none => stderrS

/-- JavaScript syntax check (javascript.py `JavaScriptLanguage.check_syntax`):
write a temp .js file, run `node --check` with a 10s bound, parse stderr on
failure.  The temp file is unlinked after a completed run and in the
TimeoutExpired handler, but the FileNotFoundError handler returns without
unlinking. -/
def jsCheckSyntax (R : JsRuntime) (_code : String) :
    Verifier.SyntaxResult × FsTrace :=
  if !R.node_available then
    ({ valid := false,
       error_message := some "Node.js not found. Install from https://nodejs.org/" },
     ⟨false, false⟩)
  else
    match R.subprocess_run ["node", "--check", R.tmp_name] 10 with
    | .completed rc _ err =>
      if rc == 0 then ({ valid := true }, ⟨true, true⟩)
      else
        let stderrS := pyStrip err
        ({ valid := false,
           error_message := some (jsErrorMsg stderrS),
           error_line := jsErrorLine R.tmp_name stderrS },
         ⟨true, true⟩)
    | .fileNotFound =>
      ({ valid := false,
         error_message := some "Node.js not found. Install from https://nodejs.org/" },
       ⟨true, false⟩)
    | .timeoutExpired =>
      ({ valid := false, error_message := some "Syntax check timed out" },
       ⟨true, true⟩)

/-- Harness builder of javascript.py `_build_test_harness`: solution code
plus a try/catch wrapper that prints a result or error JSON payload. -/
def _build_test_harness (code func_name : String) (input_args : List Value) :
    String :=
  let js_args := String.intercalate ", " (input_args.map jsonDumps)
  code ++ "\n\n" ++
    "try \x7b\n" ++
    "  const __result = " ++ func_name ++ "(" ++ js_args ++ ");\n" ++
    "  process.stdout.write(JSON.stringify(\x7b \"result\": __result \x7d));\n" ++
    "\x7d catch (__err) \x7b\n" ++
    "  process.stdout.write(JSON.stringify(\x7b \"error\": __err.message \x7d));\n" ++
    "  process.exit(1);\n" ++
    "\x7d\n"

/-- Python type name of a modelled value (for TypeError messages). -/
def pyTypeName : Value → String
  | .null => "NoneType"
  | .bool _ => "bool"
  | .int _ => "int"
  | .str _ => "str"
  | .list _ => "list"
  | .dict _ => "dict"

/-- Python `key in container` on a parsed JSON payload; `Except` carries
the TypeError raised on non-container payloads. -/
def pyIn (k : String) : Value → Except String Bool
  | .dict kvs => .ok (lookupStr k kvs).isSome
  | .list xs => .ok (xs.any (fun x => pyEq x (.str k)))
  | .str s => .ok (strContains s k)
  | v => .error ("argument of type '" ++ pyTypeName v ++ "' is not iterable")

/-- Python `container[key]` on a parsed JSON payload; `Except` carries the
KeyError / TypeError message. -/
def pySubscript (k : String) : Value → Except String Value
  | .dict kvs =>
    match lookupStr k kvs with
    | some w => .ok w
    | none => .error ("'" ++ k ++ "'")
  | .list _ => .error "list indices must be integers or slices, not str"
  | .str _ => .error "string indices must be integers, not 'str'"
  | v => .error ("'" ++ pyTypeName v ++ "' object is not subscriptable")

/-- Failing TestResult with an error payload (the adapter's common shape). -/
def jsFail (input_args : List Value) (expected : Value) (e : Value) :
    Verifier.TestResult :=
  { passed := false, input_args, expected, actual := .null, error := some e }

/-- JavaScript single-test execution (javascript.py
`JavaScriptLanguage.run_test_case`): build the harness, write it to a temp
file, run Node with the configured timeout, parse the JSON payload from
stdout, and judge via the comparator.  Payload inspection errors flow
through the generic exception handler; the temp file is unlinked on every
handled path except FileNotFoundError. -/
def jsRunTestCase (R : JsRuntime) (code : String) (input_args : List Value)
    (expected_output : Value) (timeout : Option Nat := none) :
    Verifier.TestResult × FsTrace :=
  let t := timeout.getD R.execution_timeout
  if !R.node_available then
    (jsFail input_args expected_output
      (.str "Node.js not found. Install from https://nodejs.org/"),
     ⟨false, false⟩)
  else
    match R.extract_method_name code with
    | none =>
      (jsFail input_args expected_output (.str "Could not find solution function"),
       ⟨false, false⟩)
    | some _fn =>
      match R.subprocess_run ["node", R.tmp_name] t with
      | .completed rc out err =>
        if rc != 0 then
          let emsg := if pyStrip err == "" then pyStrip out else pyStrip err
          let emsg := if emsg == "" then "Node.js execution failed" else emsg
          (jsFail input_args expected_output (.str emsg), ⟨true, true⟩)
        else
          match json_loads (pyStrip out) with
          | none =>
            (jsFail input_args expected_output
              (.str ("Could not parse output: " ++ pyStrip out)),
             ⟨true, true⟩)
          | some output =>
            match pyIn "error" output with
            | .error m =>
              (jsFail input_args expected_output (.str m), ⟨true, true⟩)
            | .ok true =>
              match pySubscript "error" output with
              | .ok ev =>
                (jsFail input_args expected_output ev, ⟨true, true⟩)
              | .error m =>
                (jsFail input_args expected_output (.str m), ⟨true, true⟩)
            | .ok false =>
              match pySubscript "result" output with
              | .ok actual =>
                ({ passed := Verifier._compare_results expected_output actual,
                   input_args, expected := expected_output, actual,
                   error := none },
                 ⟨true, true⟩)
              | .error m =>
                (jsFail input_args expected_output (.str m), ⟨true, true⟩)
      | .fileNotFound =>
        (jsFail input_args expected_output
          (.str "Node.js not found. Install from https://nodejs.org/"),
         ⟨true, false⟩)
      | .timeoutExpired =>
        (jsFail input_args expected_output
          (.str ("Execution timed out after " ++ toString t ++ "s")),
         ⟨true, true⟩)

/-- Oracle bundle for the TypeScript adapter: resolved tsx / npx paths,
the temp-file name and the subprocess runner. -/
structure TsRuntime where
  tsx_path : Option String
  npx_path : Option String
  tmp_name : String
  subprocess_run : List String → Nat → SubprocOutcome

/-- Command resolution of typescript.py `_tsx_cmd`. -/
def _tsx_cmd (R : TsRuntime) : List String :=
  match R.tsx_path with
  | some p => [p]
  | none =>
    match R.npx_path with
    | some p => [p, "--yes", "tsx"]
    | none => ["tsx"]

/-- Availability probe of typescript.py `can_run_tests`. -/
def tsCanRunTests (R : TsRuntime) : Bool :=
  R.tsx_path.isSome || R.npx_path.isSome

/-- Message and line extraction from the tsx/esbuild stderr
(typescript.py lines 85-104). -/
def tsErrorInfo (stderrS : String) : String × Option Nat :=
  match (pySplitOn stderrS "\n").find?
      (fun l => strContains l ".ts:" && strContains l "ERROR:") with
  | none => (stderrS, none)
  | some line =>
    let after_ts := afterFirstSep line ".ts:"
    let parts := splitAtMost after_ts ":" 2
    if parts.length < 3 then (stderrS, none)
    else
      let eline :=
        match pyInt (parts.headD "") with
        | some n => if 0 ≤ n then some n.toNat else none
        | none => none
      let msg_part := pyStrip (parts.getD 2 "")
      let msg_part :=
        if strStartsWith msg_part "ERROR:" then
          pyStrip (msg_part.drop ("ERROR:".length))
        else msg_part
      (msg_part, eline)

/-- TypeScript syntax check (typescript.py `TypeScriptLanguage.check_syntax`):
run the source through tsx with a 15s bound; parse the esbuild error
format on failure.  The FileNotFoundError handler returns without
unlinking the temp file. -/
def tsCheckSyntax (R : TsRuntime) (_code : String) :
    Verifier.SyntaxResult × FsTrace :=
  if !(tsCanRunTests R) then
    ({ valid := false,
       error_message := some "tsx not found. Install with: npm install -g tsx" },
     ⟨false, false⟩)
  else
    match R.subprocess_run ( _tsx_cmd R ++ [R.tmp_name]) 15 with
    | .completed rc _ err =>
      if rc == 0 then ({ valid := true }, ⟨true, true⟩)
      else
        let stderrS := pyStrip err
        let info := tsErrorInfo stderrS
        ({ valid := false, error_message := some info.1, error_line := info.2 },
         ⟨true, true⟩)
    | .fileNotFound =>
      ({ valid := false,
         error_message := some "tsx not found. Install with: npm install -g tsx" },
       ⟨true, false⟩)
    | .timeoutExpired =>
      ({ valid := false, error_message := some "Syntax check timed out" },
       ⟨true, true⟩)

/-- TypeScript single-test execution stub (typescript.py
`TypeScriptLanguage.run_test_case`): always the same failing result. -/
def tsRunTestCase (_code : String) (input_args : List Value)
    (expected_output : Value) (_timeout : Option Nat := none) :
    Verifier.TestResult :=
  { passed := false, input_args, expected := expected_output,
    actual := .null,
    error := some (.str "TypeScript test execution not yet implemented") }

end Langs

namespace PythonLanguage

/-- Python-adapter single-test execution (languages/python.py
`PythonLanguage.run_test_case`).  Its body is the same control flow as
verifier.py `run_test_case`; the only source difference — the exec
namespace pre-bound with common imports inside `_extract_solution_class` —
lives behind the `extract_solution_class` oracle field. -/
def run_test_case {Cls Mth : Type} (R : Verifier.PyRuntime Cls Mth)
    (code : String) (input_args : List Value) (expected_output : Value)
    (timeout : Option Nat := none) : Verifier.TestResult :=
  let t := timeout.getD R.execution_timeout
  match R.extract_solution_class code with
  | none =>
    { passed := false, input_args, expected := expected_output,
      actual := .null, error := some (.str "Could not extract Solution class") }
  | some cls =>
    match R.extract_method_name code with
    | none =>
      { passed := false, input_args, expected := expected_output,
        actual := .null, error := some (.str "Could not find solution method") }
    | some mname =>
      match R.instantiate cls mname with
      | .error e =>
        { passed := false, input_args, expected := expected_output,
          actual := .null,
          error := some (.str ("Could not instantiate Solution: " ++ e)) }
      | .ok mth =>
        match R.guarded_run mth input_args t with
        | .ok actual =>
          { passed := Verifier._compare_results expected_output actual,
            input_args, expected := expected_output, actual, error := none }
        | .timeout =>
          { passed := false, input_args, expected := expected_output,
            actual := .null,
            error := some (.str ("Execution timed out after " ++ toString t ++ "s")) }
        | .exn msg =>
          { passed := false, input_args, expected := expected_output,
            actual := .null, error := some (.str msg) }

end PythonLanguage

/-- Concrete runtime whose oracles all fail benignly; parameter count 2.
Used to instantiate orchestrator claims on concrete data. -/
def twoParamRuntime : Verifier.PyRuntime Unit Unit where
  ast_parse := fun _ => none
  extract_solution_class := fun _ => none
  extract_method_name := fun _ => none
  count_method_params := fun _ => 2
  instantiate := fun _ _ => .error "boom"
  guarded_run := fun _ _ _ => .exn "boom"
  execution_timeout := 5

/-- Concrete runtime whose `ast.parse` reports a syntax error on line 1. -/
def badParseRuntime : Verifier.PyRuntime Unit Unit where
  ast_parse := fun _ => some ⟨some "invalid syntax detected", "full render", some 1⟩
  extract_solution_class := fun _ => some ()
  extract_method_name := fun _ => some "twoSum"
  count_method_params := fun _ => 2
  instantiate := fun _ _ => .ok ()
  guarded_run := fun _ _ _ => .ok .null
  execution_timeout := 5

/-- Concrete runtime whose extraction phases succeed and whose guarded
invocation always exceeds the deadline. -/
def timingOutRuntime : Verifier.PyRuntime Unit Unit where
  ast_parse := fun _ => none
  extract_solution_class := fun _ => some ()
  extract_method_name := fun _ => some "twoSum"
  count_method_params := fun _ => 2
  instantiate := fun _ _ => .ok ()
  guarded_run := fun _ _ _ => .timeout
  execution_timeout := 5

/-- Concrete JavaScript runtime where Node passes the availability probe
but the subprocess invocation raises FileNotFoundError. -/
def fnfJsRuntime : Langs.JsRuntime where
  node_available := true
  tmp_name := "tmpabc.js"
  extract_method_name := fun _ => some "twoSum"
  subprocess_run := fun _ _ => .fileNotFound
  execution_timeout := 5

/-- Concrete TypeScript runtime in the same FileNotFoundError situation. -/
def fnfTsRuntime : Langs.TsRuntime where
  tsx_path := some "/usr/bin/tsx"
  npx_path := none
  tmp_name := "tmpabc.ts"
  subprocess_run := fun _ _ => .fileNotFound

namespace Verifier

variable {Cls Mth : Type}

theorem parseLines_eq (f : String → Value) (ls : List String) :
    parseLines f ls =
      ((ls.map pyStrip).filter (fun t => !(t == ""))).map f := by
  induction ls with
  | nil => rfl
  | cons l ls ih =>
    by_cases h : pyStrip l = ""
    · simp [parseLines, List.filter_cons, h, ih]
    · simp [parseLines, List.filter_cons, h, ih]

theorem exampleFold_spec (R : PyRuntime Cls Mth) (code : String) :
    ∀ (exs : List Example) (st : RunState),
      ((exs.foldl (exampleStep R code) st).run
          = st.run + (exs.filter usableExample).length)
      ∧ ((exs.foldl (exampleStep R code) st).tested
          = st.tested ++ (exs.filter usableExample).map exampleKey) := by
  intro exs
  induction exs with
  | nil => intro st; simp
  | cons ex exs ih =>
    intro st
    by_cases h : usableExample ex
    · have hstep : exampleStep R code st ex =
        { tested := st.tested ++ [exampleKey ex]
          results := st.results ++
            [run_test_case R code ( _parse_test_input ex.input)
              ( _parse_expected_output ex.output)]
          run := st.run + 1
          passed := st.passed +
            (if (run_test_case R code ( _parse_test_input ex.input)
                  ( _parse_expected_output ex.output)).passed then 1 else 0) } := by
        simp [exampleStep, h, exampleKey]
      rcases ih ({ tested := st.tested ++ [exampleKey ex]
                   results := st.results ++
                     [run_test_case R code ( _parse_test_input ex.input)
                       ( _parse_expected_output ex.output)]
                   run := st.run + 1
                   passed := st.passed +
                     (if (run_test_case R code ( _parse_test_input ex.input)
                           ( _parse_expected_output ex.output)).passed
                      then 1 else 0) } : RunState) with ⟨ihr, iht⟩
      constructor
      · simp only [List.foldl_cons, hstep]
        rw [ihr]
        simp [h]
        omega
      · simp only [List.foldl_cons, hstep]
        rw [iht]
        simp [h]
    · have hstep : exampleStep R code st ex = st := by
        simp [exampleStep, h]
      rcases ih st with ⟨ihr, iht⟩
      constructor
      · simp only [List.foldl_cons, hstep, ihr]
        simp [h]
      · simp only [List.foldl_cons, hstep, iht]
        simp [h]

theorem chunkFold_run (R : PyRuntime Cls Mth) (code : String) :
    ∀ (ps : List (List String × Value)) (st : RunState),
      (ps.foldl (chunkStep R code) st).run
        = st.run + dedupCount st.tested (ps.map (fun p => chunkKey p.1)) := by
  intro ps
  induction ps with
  | nil => intro st; simp [dedupCount]
  | cons p ps ih =>
    intro st
    by_cases h : st.tested.contains (chunkKey p.1)
    · have hstep : chunkStep R code st p = st := by
        simp only [chunkStep, chunkKey] at h ⊢
        rw [if_pos h]
      simp only [List.foldl_cons, hstep, List.map_cons, dedupCount]
      rw [if_pos h]
      exact ih st
    · have hstep : chunkStep R code st p =
        { tested := st.tested ++ [chunkKey p.1]
          results := st.results ++
            [run_test_case R code
              ( _parse_test_input (String.intercalate "\n" p.1)) p.2]
          run := st.run + 1
          passed := st.passed +
            (if (run_test_case R code
                  ( _parse_test_input (String.intercalate "\n" p.1)) p.2).passed
             then 1 else 0) } := by
        simp only [chunkStep, chunkKey] at h ⊢
        rw [if_neg h]
      simp only [List.foldl_cons, hstep, List.map_cons, dedupCount]
      rw [if_neg h]
      rw [ih]
      simp
      omega

theorem run_test_case_error_failed (R : PyRuntime Cls Mth) (code : String)
    (args : List Value) (exp : Value) (t? : Option Nat) :
    (run_test_case R code args exp t?).error ≠ none →
    (run_test_case R code args exp t?).passed = false := by
  intro herr
  unfold run_test_case at herr ⊢
  cases h1 : R.extract_solution_class code with
  | none => simp [h1]
  | some cls =>
    cases h2 : R.extract_method_name code with
    | none => simp [h1, h2]
    | some mname =>
      cases h3 : R.instantiate cls mname with
      | error e => simp [h1, h2, h3]
      | ok mth =>
        cases h4 : R.guarded_run mth args (t?.getD R.execution_timeout) with
        | ok v => simp [h1, h2, h3, h4] at herr
        | timeout => simp [h1, h2, h3, h4]
        | exn msg => simp [h1, h2, h3, h4]

theorem foldPreserve_examples (R : PyRuntime Cls Mth) (code : String)
    (P : TestResult → Prop)
    (hP : ∀ args exp, P (run_test_case R code args exp)) :
    ∀ (exs : List Example) (st : RunState),
      (∀ tr ∈ st.results, P tr) →
      ∀ tr ∈ ((exs.foldl (exampleStep R code) st)).results, P tr := by
  intro exs
  induction exs with
  | nil => intro st h; simpa using h
  | cons ex exs ih =>
    intro st h
    simp only [List.foldl_cons]
    apply ih
    intro tr htr
    by_cases hu : usableExample ex
    · simp only [exampleStep, hu, Bool.not_true, Bool.false_eq_true,
        if_false] at htr
      simp only [List.mem_append, List.mem_singleton] at htr
      rcases htr with htr | htr
      · exact h tr htr
      · subst htr; apply hP
    · simp only [exampleStep, hu] at htr
      simp at htr
      exact h tr htr

theorem foldPreserve_chunks (R : PyRuntime Cls Mth) (code : String)
    (P : TestResult → Prop)
    (hP : ∀ args exp, P (run_test_case R code args exp)) :
    ∀ (ps : List (List String × Value)) (st : RunState),
      (∀ tr ∈ st.results, P tr) →
      ∀ tr ∈ ((ps.foldl (chunkStep R code) st)).results, P tr := by
  intro ps
  induction ps with
  | nil => intro st h; simpa using h
  | cons p ps ih =>
    intro st h
    simp only [List.foldl_cons]
    apply ih
    intro tr htr
    by_cases hc : st.tested.contains (strOfArgs
        ( _parse_test_input (String.intercalate "\n" p.1)))
    · have hstep : chunkStep R code st p = st := by
        simp only [chunkStep]
        rw [if_pos hc]
      rw [hstep] at htr
      exact h tr htr
    · have hstep : chunkStep R code st p =
        { tested := st.tested ++
            [strOfArgs ( _parse_test_input (String.intercalate "\n" p.1))]
          results := st.results ++
            [run_test_case R code
              ( _parse_test_input (String.intercalate "\n" p.1)) p.2]
          run := st.run + 1
          passed := st.passed +
            (if (run_test_case R code
                  ( _parse_test_input (String.intercalate "\n" p.1)) p.2).passed
             then 1 else 0) } := by
        simp only [chunkStep]
        rw [if_neg hc]
      rw [hstep] at htr
      simp only [List.mem_append, List.mem_singleton] at htr
      rcases htr with htr | htr
      · exact h tr htr
      · subst htr; apply hP

theorem chunkAux_spec : ∀ (fuel n : Nat) (cs : List String), cs.length < fuel →
    0 < n →
    (∀ g ∈ chunkAux n fuel cs, g.length = n)
    ∧ (chunkAux n fuel cs).length = cs.length / n
    ∧ (chunkAux n fuel cs).join = cs.take (n * (cs.length / n)) := by
  intro fuel
  induction fuel with
  | zero =>
    intro n cs hlen hn
    omega
  | succ fuel ih =>
    intro n cs hlen hn
    by_cases hshort : cs.length < n
    · have hdiv : cs.length / n = 0 := Nat.div_eq_of_lt hshort
      rw [chunkAux, if_pos hshort]
      simp [hdiv]
    · push_neg at hshort
      have hdrop : (cs.drop n).length < fuel := by
        rw [List.length_drop]
        omega
      obtain ⟨ih1, ih2, ih3⟩ := ih n (cs.drop n) hdrop hn
      have hdiv : cs.length / n = (cs.length - n) / n + 1 :=
        Nat.div_eq_sub_div hn hshort
      have hnot : ¬ cs.length < n := by omega
      refine ⟨?_, ?_, ?_⟩
      · intro g hg
        rw [chunkAux, if_neg hnot] at hg
        rcases List.mem_cons.mp hg with hg | hg
        · subst hg
          rw [List.length_take]
          omega
        · exact ih1 g hg
      · rw [chunkAux, if_neg hnot]
        simp only [List.length_cons, ih2, List.length_drop]
        omega
      · rw [chunkAux, if_neg hnot]
        simp only [List.join_cons, ih3, List.length_drop]
        conv_rhs =>
          rw [hdiv, Nat.mul_succ,
            Nat.add_comm (n * ((cs.length - n) / n)) n,
            List.take_add]

theorem group_test_case_inputs_spec (tcs : List String) (n : Nat) (hn : 0 < n) :
    (∀ g ∈ _group_test_case_inputs tcs n, g.length = n)
    ∧ ( _group_test_case_inputs tcs n).length = tcs.length / n
    ∧ ( _group_test_case_inputs tcs n).join = tcs.take (n * (tcs.length / n)) := by
  by_cases hcs : tcs = []
  · subst hcs
    simp [_group_test_case_inputs]
  · have hcond : (n == 0 || tcs.isEmpty) = false := by
      simp [hcs]
      omega
    unfold _group_test_case_inputs
    rw [hcond]
    simp only [Bool.false_eq_true, if_false]
    exact chunkAux_spec (tcs.length + 1) n tcs (Nat.lt_succ_self _) hn

end Verifier

namespace Langs

theorem jsRun_shape (J : JsRuntime) (code : String) (args : List Value)
    (exp : Value) (t? : Option Nat) :
    ( jsRunTestCase J code args exp t?).1.error = none
    ∨ ( jsRunTestCase J code args exp t?).1.passed = false := by
  unfold jsRunTestCase
  by_cases hn : J.node_available
  · cases hf : J.extract_method_name code with
    | none => right; simp [hn, hf, jsFail]
    | some fn =>
      cases hs : J.subprocess_run ["node", J.tmp_name]
          (t?.getD J.execution_timeout) with
      | completed rc out err =>
        by_cases hrc : (rc != 0) = true
        · right; simp [hn, hf, hs, hrc, jsFail]
        · cases hj : json_loads (pyStrip out) with
          | none => right; simp [hn, hf, hs, hrc, hj, jsFail]
          | some output =>
            cases hi : pyIn "error" output with
            | error m => right; simp [hn, hf, hs, hrc, hj, hi, jsFail]
            | ok b =>
              cases b with
              | true =>
                cases hsub : pySubscript "error" output with
                | ok ev => right; simp [hn, hf, hs, hrc, hj, hi, hsub, jsFail]
                | error m => right; simp [hn, hf, hs, hrc, hj, hi, hsub, jsFail]
              | false =>
                cases hsub : pySubscript "result" output with
                | ok actual => left; simp [hn, hf, hs, hrc, hj, hi, hsub]
                | error m => right; simp [hn, hf, hs, hrc, hj, hi, hsub, jsFail]
      | fileNotFound => right; simp [hn, hf, hs, jsFail]
      | timeoutExpired => right; simp [hn, hf, hs, jsFail]
  · right; simp [hn, jsFail]

end Langs

namespace TestParser

theorem parseAssignParts_eq : ∀ ps : List String,
    parseAssignParts ps =
      ((ps.map pyStrip).filter (fun q => strHasChar q '=')).map
        (fun q => _parse_single_value (pyStrip ( afterFirstEq q))) := by
  intro ps
  induction ps with
  | nil => rfl
  | cons p ps ih =>
    by_cases h : strHasChar (pyStrip p) '=' = true
    · simp [parseAssignParts, List.filter_cons, h, ih]
    · simp [parseAssignParts, List.filter_cons, h, ih]

end TestParser

/-- C1: on syntactically invalid source, `run_test_cases` (and the
`verify_solution` wrapper) return immediately with `syntax_valid = false`,
the formatted syntax error, zero tests run and passed, and an empty
result list, regardless of the examples, test cases and expected
outputs supplied. -/
theorem C1_no_tests_after_syntax_failure {Cls Mth : Type}
    (R : Verifier.PyRuntime Cls Mth) (code : String) (tcs : List String)
    (exs : List Verifier.Example) (eo : Option (List Value)) :
    ( Verifier.check_syntax R code).valid = false →
    Verifier.run_test_cases R code tcs exs eo =
      { syntax_valid := false
        syntax_error := some ( Verifier.syntaxErrorLine
          ( Verifier.check_syntax R code))
        tests_run := 0
        tests_passed := 0
        test_results := [] }
    ∧ Verifier.verify_solution R code tcs exs eo =
      { syntax_valid := false
        syntax_error := some ( Verifier.syntaxErrorLine
          ( Verifier.check_syntax R code))
        tests_run := 0
        tests_passed := 0
        test_results := [] } := by
  intro h
  constructor
  · simp [Verifier.run_test_cases, h]
  · simp [Verifier.verify_solution, Verifier.run_test_cases, h]

/-- Witness for C1 at a concrete runtime whose `ast.parse` reports a
syntax error on line 1. -/
theorem C1_no_tests_after_syntax_failure_witness :
    ( Verifier.check_syntax badParseRuntime "def f(:").valid = false
    ∧ Verifier.run_test_cases badParseRuntime "def f(:" ["[1]"]
        [⟨"[1]", "1"⟩] (some [.int 1]) =
      { syntax_valid := false
        syntax_error := some "Line 1: invalid syntax detected"
        tests_run := 0
        tests_passed := 0
        test_results := [] } :=
  ⟨rfl,
    (C1_no_tests_after_syntax_failure badParseRuntime "def f(:" ["[1]"]
      [⟨"[1]", "1"⟩] (some [.int 1]) rfl).1⟩

/-- C2 counterexample: `get_language` returns `None` for the unrecognized
slug "brainfuck" — no unsupported-language error is raised anywhere, and
`verify_solution` takes no language selector at all, contradicting the
claim that an unrecognized slug makes `verify` abort with a raised
unsupported-language error. -/
theorem C2_unsupported_language_counterexample :
    Langs.get_language "brainfuck" = none := rfl

/-- C2 (amended): `verify_solution` performs no language resolution — it
accepts no language selector, always runs the reference Python pipeline
via `run_test_cases`, and always returns a `VerificationResult` rather
than raising; the registry lookup `get_language` resolves the registered
slugs (with "python3" the reference default) and returns `None`, not an
error, for an unrecognized slug. -/
theorem C2_language_resolution_amended {Cls Mth : Type}
    (R : Verifier.PyRuntime Cls Mth) (code : String) (tcs : List String)
    (exs : List Verifier.Example) (eo : Option (List Value)) :
    Verifier.verify_solution R code tcs exs eo =
      Verifier.run_test_cases R code tcs exs eo
    ∧ Langs.get_language "python3" = some .python
    ∧ Langs.get_language "python" = some .python
    ∧ Langs.get_language "javascript" = some .javascript
    ∧ Langs.get_language "typescript" = some .typescript
    ∧ Langs.get_language "brainfuck" = none :=
  ⟨rfl, rfl, rfl, rfl, rfl, rfl⟩

/-- C6: when the extraction phases succeed and the guarded invocation
times out, `run_test_case` (verifier and Python adapter) returns a
failing TestResult with `actual = None` and an error message naming the
configured timeout value; any other exception from the invoked code is
likewise caught and converted into a failing TestResult. -/
theorem C6_timeout_and_exception_converted {Cls Mth : Type}
    (R : Verifier.PyRuntime Cls Mth) (code : String) (args : List Value)
    (exp : Value) (t? : Option Nat) (cls : Cls) (mname : String) (mth : Mth) :
    R.extract_solution_class code = some cls →
    R.extract_method_name code = some mname →
    R.instantiate cls mname = .ok mth →
    ((R.guarded_run mth args (t?.getD R.execution_timeout) = .timeout →
      Verifier.run_test_case R code args exp t? =
        { passed := false, input_args := args, expected := exp,
          actual := .null,
          error := some (.str ("Execution timed out after "
            ++ toString (t?.getD R.execution_timeout) ++ "s")) }
      ∧ PythonLanguage.run_test_case R code args exp t? =
        { passed := false, input_args := args, expected := exp,
          actual := .null,
          error := some (.str ("Execution timed out after "
            ++ toString (t?.getD R.execution_timeout) ++ "s")) })
    ∧ (∀ msg, R.guarded_run mth args (t?.getD R.execution_timeout) = .exn msg →
      Verifier.run_test_case R code args exp t? =
        { passed := false, input_args := args, expected := exp,
          actual := .null, error := some (.str msg) }
      ∧ PythonLanguage.run_test_case R code args exp t? =
        { passed := false, input_args := args, expected := exp,
          actual := .null, error := some (.str msg) })) := by
  intro h1 h2 h3
  constructor
  · intro h4
    constructor
    · simp [Verifier.run_test_case, h1, h2, h3, h4]
    · simp [PythonLanguage.run_test_case, h1, h2, h3, h4]
  · intro msg h4
    constructor
    · simp [Verifier.run_test_case, h1, h2, h3, h4]
    · simp [PythonLanguage.run_test_case, h1, h2, h3, h4]

/-- Witness for C6 at a concrete runtime whose guarded invocation always
exceeds the deadline of 5 seconds. -/
theorem C6_timeout_and_exception_converted_witness :
    timingOutRuntime.guarded_run () [.int 1] 5 = .timeout
    ∧ Verifier.run_test_case timingOutRuntime "code" [.int 1] (.int 2) none =
      { passed := false, input_args := [.int 1], expected := .int 2,
        actual := .null,
        error := some (.str "Execution timed out after 5s") } :=
  ⟨rfl,
    (((C6_timeout_and_exception_converted timingOutRuntime "code" [.int 1]
      (.int 2) none () "twoSum" () rfl rfl rfl).1) rfl).1⟩

/-- C3: the test-input parser auto-detects two dialects.  A block
containing `=` that does not start with `[` is split on bracket-depth-zero
commas and each pair's right-hand side is parsed, so the assignment-list
example yields `[[2,7,11,15], 9]`; any other block is parsed one value
per non-blank line, so the two-line example yields the same sequence. -/
theorem C3_parser_dialects :
    TestParser._parse_test_input "nums = [2,7,11,15], target = 9"
      = [.list [.int 2, .int 7, .int 11, .int 15], .int 9]
    ∧ TestParser._parse_test_input "[2,7,11,15]\n9"
      = [.list [.int 2, .int 7, .int 11, .int 15], .int 9]
    ∧ (∀ s : String,
        (strHasChar (pyStrip s) '=' && ! strStartsWith (pyStrip s) "[") = true →
        TestParser._parse_test_input s
          = ((( TestParser._split_leetcode_input (pyStrip s)).map pyStrip).filter
              (fun q => strHasChar q '=')).map
              (fun q => TestParser._parse_single_value
                (pyStrip ( TestParser.afterFirstEq q))))
    ∧ (∀ s : String,
        (strHasChar (pyStrip s) '=' && ! strStartsWith (pyStrip s) "[") = false →
        TestParser._parse_test_input s
          = (((pySplitOn (pyStrip s) "\n").map pyStrip).filter
              (fun t => !(t == ""))).map TestParser._parse_single_value) := by
  refine ⟨rfl, rfl, ?_, ?_⟩
  · intro s h
    unfold TestParser._parse_test_input
    rw [if_pos h]
    exact TestParser.parseAssignParts_eq _
  · intro s h
    unfold TestParser._parse_test_input
    rw [if_neg (by simp [h])]
    exact Verifier.parseLines_eq _ _

/-- Witness for C3's two dialect-branch statements at the concrete claim
inputs, with the dialect conditions discharged by evaluation. -/
theorem C3_parser_dialects_witness :
    (strHasChar (pyStrip "nums = [2,7,11,15], target = 9") '='
        && ! strStartsWith (pyStrip "nums = [2,7,11,15], target = 9") "[") = true
    ∧ TestParser._parse_test_input "nums = [2,7,11,15], target = 9"
        = ((( TestParser._split_leetcode_input
              (pyStrip "nums = [2,7,11,15], target = 9")).map pyStrip).filter
            (fun q => strHasChar q '=')).map
            (fun q => TestParser._parse_single_value
              (pyStrip ( TestParser.afterFirstEq q)))
    ∧ (strHasChar (pyStrip "[2,7,11,15]\n9") '='
        && ! strStartsWith (pyStrip "[2,7,11,15]\n9") "[") = false
    ∧ TestParser._parse_test_input "[2,7,11,15]\n9"
        = (((pySplitOn (pyStrip "[2,7,11,15]\n9") "\n").map pyStrip).filter
            (fun t => !(t == ""))).map TestParser._parse_single_value :=
  ⟨rfl, C3_parser_dialects.2.2.1 _ rfl, rfl, C3_parser_dialects.2.2.2 _ rfl⟩

/-- C5: the comparator returns true exactly when the values are Python
structurally equal, or when both are lists of equal length whose sorted
forms are element-wise equal (the sort relaxation being skipped when
sorting raises on unorderable elements); in particular the claim's three
concrete comparisons hold, the dict case passing by direct equality. -/
theorem C5_comparator_characterization :
    (∀ e a : Value,
      Verifier._compare_results e a = true ↔
        (pyEq e a = true ∨
          ∃ le la se sa, e = Value.list le ∧ a = Value.list la ∧
            le.length = la.length ∧ pySorted le = some se ∧
            pySorted la = some sa ∧ pyEqList se sa = true))
    ∧ Verifier._compare_results (.list [.int 0, .int 1])
        (.list [.int 1, .int 0]) = true
    ∧ Verifier._compare_results (.list [.int 0, .int 1])
        (.list [.int 0, .int 1, .int 2]) = false
    ∧ Verifier._compare_results (.dict [("a", .int 1)])
        (.dict [("a", .int 1)]) = true := by
  refine ⟨?_, rfl, rfl, rfl⟩
  intro e a
  unfold Verifier._compare_results
  cases hpe : pyEq e a with
  | true => simp [hpe]
  | false =>
    simp only [hpe, Bool.false_eq_true, if_false]
    cases e with
    | list le =>
      cases a with
      | list la =>
        by_cases hl : le.length = la.length
        · simp only [bne, hl, beq_self_eq_true, Bool.not_true,
            Bool.false_eq_true, if_false]
          cases hse : pySorted le with
          | none => simp [hse]
          | some se =>
            cases hsa : pySorted la with
            | none => simp [hse, hsa]
            | some sa => simp [hse, hsa, hl]
        · have hbne : (le.length != la.length) = true := by
            simp [bne, hl]
          simp [hbne, hl]
      | null => simp
      | bool b => simp
      | int n => simp
      | str s => simp
      | dict kvs => simp
    | null => cases a <;> simp
    | bool b => cases a <;> simp
    | int n => cases a <;> simp
    | str s => cases a <;> simp
    | dict kvs => cases a <;> simp

theorem python_run_eq_verifier_run {Cls Mth : Type}
    (R : Verifier.PyRuntime Cls Mth) (code : String) (args : List Value)
    (exp : Value) (t? : Option Nat) :
    PythonLanguage.run_test_case R code args exp t?
      = Verifier.run_test_case R code args exp t? := rfl

/-- C4: with AI expected outputs and raw lines both present and a nonzero
parameter count `n`, the orchestrator groups the lines into consecutive
chunks of exactly `n` (dropping a short trailing group: the grouping's
chunks all have length `n`, there are `len / n` of them and together they
form the longest `n`-divisible prefix), and `tests_run` counts the usable
examples plus only those chunks whose dedup key is fresh with respect to
the examples' keys and all earlier chunks' keys. -/
theorem C4_grouping_and_dedup {Cls Mth : Type} (R : Verifier.PyRuntime Cls Mth)
    (code : String) (tcs : List String) (exs : List Verifier.Example)
    (eoL : List Value) :
    ( Verifier.check_syntax R code).valid = true →
    eoL ≠ [] → tcs ≠ [] → 0 < R.count_method_params code →
    ((∀ g ∈ Verifier._group_test_case_inputs tcs (R.count_method_params code),
        g.length = R.count_method_params code)
    ∧ ( Verifier._group_test_case_inputs tcs (R.count_method_params code)).length
        = tcs.length / R.count_method_params code
    ∧ ( Verifier._group_test_case_inputs tcs (R.count_method_params code)).join
        = tcs.take (R.count_method_params code
            * (tcs.length / R.count_method_params code))
    ∧ ( Verifier.run_test_cases R code tcs exs (some eoL)).tests_run
        = (exs.filter Verifier.usableExample).length
          + Verifier.dedupCount
              ((exs.filter Verifier.usableExample).map Verifier.exampleKey)
              ((( Verifier._group_test_case_inputs tcs
                  (R.count_method_params code)).zip eoL).map
                (fun p => Verifier.chunkKey p.1))) := by
  intro hs hne htcs hn
  obtain ⟨g1, g2, g3⟩ :=
    Verifier.group_test_case_inputs_spec tcs (R.count_method_params code) hn
  refine ⟨g1, g2, g3, ?_⟩
  have he : eoL.isEmpty = false := by
    cases eoL with
    | nil => exact absurd rfl hne
    | cons x xs => rfl
  have htc : tcs.isEmpty = false := by
    cases tcs with
    | nil => exact absurd rfl htcs
    | cons x xs => rfl
  simp only [Verifier.run_test_cases, hs, Bool.not_true, Bool.false_eq_true,
    if_false, Option.getD_some, he, htc, Bool.not_false, Bool.and_self,
    if_true, hn]
  rw [Verifier.chunkFold_run]
  obtain ⟨er, et⟩ :=
    Verifier.exampleFold_spec R code exs ⟨[], [], 0, 0⟩
  rw [er, et]
  simp

/-- Witness for C4 at the P6 instance: one example and one matching
supplementary chunk with an AI expected output; the logical case is
counted exactly once. -/
theorem C4_grouping_and_dedup_witness :
    0 < twoParamRuntime.count_method_params "code"
    ∧ ( Verifier.run_test_cases twoParamRuntime "code" ["[2,7,11,15]", "9"]
        [⟨"[2,7,11,15]\n9", "[0,1]"⟩]
        (some [.list [.int 0, .int 1]])).tests_run = 1 := by
  have h := (C4_grouping_and_dedup twoParamRuntime "code" ["[2,7,11,15]", "9"]
      [⟨"[2,7,11,15]\n9", "[0,1]"⟩] [.list [.int 0, .int 1]]
      rfl (by simp) (by simp) (by decide)).2.2.2
  refine ⟨by decide, ?_⟩
  rw [h]
  rfl

/-- C7: for every callable behaviour and positive timeout the
signal-deadline strategy and the worker-thread strategy have identical
result semantics — a value returned within the deadline is returned, an
exception raised within the deadline propagates, exceeding the deadline
yields the distinguished timeout outcome (distinct from any propagated
exception) — and hence the platform dispatch is strategy-agnostic. -/
theorem C7_strategy_equivalence (b : Timeout.FuncBehavior) (timeout : Nat) :
    0 < timeout →
    ( Timeout._run_with_timeout_unix b timeout
        = Timeout._run_with_timeout_windows b timeout
    ∧ (∀ isWin1 isWin2 : Bool,
        Timeout._run_with_timeout isWin1 b timeout
          = Timeout._run_with_timeout isWin2 b timeout)
    ∧ (∀ v t, b = .returns v t → t ≤ timeout →
        Timeout._run_with_timeout_unix b timeout = .ok v)
    ∧ (∀ e t, b = .raises e t → t ≤ timeout →
        Timeout._run_with_timeout_unix b timeout = .raised e)
    ∧ (∀ v t, b = .returns v t → timeout < t →
        Timeout._run_with_timeout_unix b timeout = .timedOut)
    ∧ (∀ e t, b = .raises e t → timeout < t →
        Timeout._run_with_timeout_unix b timeout = .timedOut)
    ∧ (b = .diverges →
        Timeout._run_with_timeout_unix b timeout = .timedOut)
    ∧ (∀ e, Timeout.Outcome.timedOut ≠ Timeout.Outcome.raised e)) := by
  intro ht
  have ht0 : (timeout == 0) = false := by
    simp only [beq_eq_false_iff_ne, ne_eq]
    omega
  have hmain : Timeout._run_with_timeout_unix b timeout
      = Timeout._run_with_timeout_windows b timeout := by
    cases b with
    | returns v t =>
      by_cases hle : t ≤ timeout
      · have hd : decide (timeout < t) = false := by simp; omega
        simp [Timeout._run_with_timeout_unix, Timeout._run_with_timeout_windows,
          Timeout.finishTime, Timeout.wrapperQueues, ht0, hle, hd]
      · have hd : decide (timeout < t) = true := by simp; omega
        simp [Timeout._run_with_timeout_unix, Timeout._run_with_timeout_windows,
          Timeout.finishTime, Timeout.wrapperQueues, ht0, hle, hd]
    | raises e t =>
      by_cases hle : t ≤ timeout
      · have hd : decide (timeout < t) = false := by simp; omega
        simp [Timeout._run_with_timeout_unix, Timeout._run_with_timeout_windows,
          Timeout.finishTime, Timeout.wrapperQueues, ht0, hle, hd]
      · have hd : decide (timeout < t) = true := by simp; omega
        simp [Timeout._run_with_timeout_unix, Timeout._run_with_timeout_windows,
          Timeout.finishTime, Timeout.wrapperQueues, ht0, hle, hd]
    | diverges =>
      simp [Timeout._run_with_timeout_unix, Timeout._run_with_timeout_windows,
        Timeout.finishTime, Timeout.wrapperQueues, ht0]
  refine ⟨hmain, ?_, ?_, ?_, ?_, ?_, ?_, ?_⟩
  · intro isWin1 isWin2
    cases isWin1 <;> cases isWin2 <;>
      simp [Timeout._run_with_timeout, hmain]
  · intro v t hb hle
    subst hb
    simp [Timeout._run_with_timeout_unix, ht0, hle]
  · intro e t hb hle
    subst hb
    simp [Timeout._run_with_timeout_unix, ht0, hle]
  · intro v t hb hgt
    subst hb
    have : ¬ t ≤ timeout := by omega
    simp [Timeout._run_with_timeout_unix, ht0, this]
  · intro e t hb hgt
    subst hb
    have : ¬ t ≤ timeout := by omega
    simp [Timeout._run_with_timeout_unix, ht0, this]
  · intro hb
    subst hb
    simp [Timeout._run_with_timeout_unix, ht0]
  · intro e h
    exact Timeout.Outcome.noConfusion h

/-- Witness for C7 at a concrete behaviour (a value returned instantly)
under a timeout of one second. -/
theorem C7_strategy_equivalence_witness :
    0 < 1
    ∧ Timeout._run_with_timeout_unix (.returns (.int 7) 0) 1
        = Timeout._run_with_timeout_windows (.returns (.int 7) 0) 1 :=
  ⟨Nat.one_pos,
    (C7_strategy_equivalence (.returns (.int 7) 0) 1 Nat.one_pos).1⟩

/-- C8 counterexample: when the subprocess invocation raises
FileNotFoundError after the availability probe succeeded, all three
shell-out paths return with the transient source file created but not
deleted — the claim that every exit path removes the temp file is false
on this exit path. -/
theorem C8_cleanup_counterexample :
    ( Langs.jsCheckSyntax fnfJsRuntime "var x = 1").2.created = true
    ∧ ( Langs.jsCheckSyntax fnfJsRuntime "var x = 1").2.deleted = false
    ∧ ( Langs.jsRunTestCase fnfJsRuntime "var twoSum = function(a, b) \x7b\x7d"
        [] (.int 0) none).2.created = true
    ∧ ( Langs.jsRunTestCase fnfJsRuntime "var twoSum = function(a, b) \x7b\x7d"
        [] (.int 0) none).2.deleted = false
    ∧ ( Langs.tsCheckSyntax fnfTsRuntime "let x: number = 1").2
        = ⟨true, false⟩ :=
  ⟨rfl, rfl, rfl, rfl, rfl⟩

/-- C8 (amended): the transient source file of the JavaScript syntax
check, the JavaScript test execution and the TypeScript syntax check is
deleted on the completed-run, parse-failure and subprocess-timeout exit
paths, but when the subprocess invocation raises FileNotFoundError (the
runtime binary vanished after the availability probe) each of the three
calls returns without deleting the file it created. -/
theorem C8_cleanup_amended (R : Langs.JsRuntime) (code : String)
    (args : List Value) (exp : Value) (t? : Option Nat)
    (T : Langs.TsRuntime) (tcode : String) :
    (R.subprocess_run ["node", "--check", R.tmp_name] 10
        ≠ Langs.SubprocOutcome.fileNotFound →
      ( Langs.jsCheckSyntax R code).2.created = true →
      ( Langs.jsCheckSyntax R code).2.deleted = true)
    ∧ (R.subprocess_run ["node", R.tmp_name] (t?.getD R.execution_timeout)
        ≠ Langs.SubprocOutcome.fileNotFound →
      ( Langs.jsRunTestCase R code args exp t?).2.created = true →
      ( Langs.jsRunTestCase R code args exp t?).2.deleted = true)
    ∧ (T.subprocess_run ( Langs._tsx_cmd T ++ [T.tmp_name]) 15
        ≠ Langs.SubprocOutcome.fileNotFound →
      ( Langs.tsCheckSyntax T tcode).2.created = true →
      ( Langs.tsCheckSyntax T tcode).2.deleted = true)
    ∧ (R.node_available = true →
      R.subprocess_run ["node", "--check", R.tmp_name] 10
        = Langs.SubprocOutcome.fileNotFound →
      ( Langs.jsCheckSyntax R code).2 = ⟨true, false⟩)
    ∧ (R.node_available = true →
      (∃ fn, R.extract_method_name code = some fn) →
      R.subprocess_run ["node", R.tmp_name] (t?.getD R.execution_timeout)
        = Langs.SubprocOutcome.fileNotFound →
      ( Langs.jsRunTestCase R code args exp t?).2 = ⟨true, false⟩)
    ∧ ( Langs.tsCanRunTests T = true →
      T.subprocess_run ( Langs._tsx_cmd T ++ [T.tmp_name]) 15
        = Langs.SubprocOutcome.fileNotFound →
      ( Langs.tsCheckSyntax T tcode).2 = ⟨true, false⟩) := by
  refine ⟨?_, ?_, ?_, ?_, ?_, ?_⟩
  · intro hnf
    by_cases hn : R.node_available
    · cases hs : R.subprocess_run ["node", "--check", R.tmp_name] 10 with
      | completed rc out err =>
        by_cases hrc : (rc == 0) = true <;>
          simp [Langs.jsCheckSyntax, hn, hs, hrc]
      | fileNotFound => exact absurd hs hnf
      | timeoutExpired => simp [Langs.jsCheckSyntax, hn, hs]
    · simp [Langs.jsCheckSyntax, hn]
  · intro hnf
    by_cases hn : R.node_available
    · cases hf : R.extract_method_name code with
      | none => simp [Langs.jsRunTestCase, hn, hf]
      | some fn =>
        cases hs : R.subprocess_run ["node", R.tmp_name]
            (t?.getD R.execution_timeout) with
        | completed rc out err =>
          by_cases hrc : (rc != 0) = true
          · simp [Langs.jsRunTestCase, hn, hf, hs, hrc]
          · cases hj : json_loads (pyStrip out) with
            | none => simp [Langs.jsRunTestCase, hn, hf, hs, hrc, hj]
            | some output =>
              cases hi : Langs.pyIn "error" output with
              | error m => simp [Langs.jsRunTestCase, hn, hf, hs, hrc, hj, hi]
              | ok b =>
                cases b with
                | true =>
                  cases hsub : Langs.pySubscript "error" output with
                  | ok ev =>
                    simp [Langs.jsRunTestCase, hn, hf, hs, hrc, hj, hi, hsub]
                  | error m =>
                    simp [Langs.jsRunTestCase, hn, hf, hs, hrc, hj, hi, hsub]
                | false =>
                  cases hsub : Langs.pySubscript "result" output with
                  | ok actual =>
                    simp [Langs.jsRunTestCase, hn, hf, hs, hrc, hj, hi, hsub]
                  | error m =>
                    simp [Langs.jsRunTestCase, hn, hf, hs, hrc, hj, hi, hsub]
        | fileNotFound => exact absurd hs hnf
        | timeoutExpired => simp [Langs.jsRunTestCase, hn, hf, hs]
    · simp [Langs.jsRunTestCase, hn]
  · intro hnf
    by_cases hc : Langs.tsCanRunTests T
    · cases hs : T.subprocess_run ( Langs._tsx_cmd T ++ [T.tmp_name]) 15 with
      | completed rc out err =>
        by_cases hrc : (rc == 0) = true <;>
          simp [Langs.tsCheckSyntax, hc, hs, hrc]
      | fileNotFound => exact absurd hs hnf
      | timeoutExpired => simp [Langs.tsCheckSyntax, hc, hs]
    · simp [Langs.tsCheckSyntax, hc]
  · intro hn hs
    simp [Langs.jsCheckSyntax, hn, hs]
  · intro hn hf hs
    obtain ⟨fn, hf⟩ := hf
    simp [Langs.jsRunTestCase, hn, hf, hs]
  · intro hc hs
    simp [Langs.tsCheckSyntax, hc, hs]

/-- Witness for C8: the FileNotFoundError leak conjunct applied at the
concrete runtime whose subprocess raises FileNotFoundError. -/
theorem C8_cleanup_amended_witness :
    ( Langs.jsRunTestCase fnfJsRuntime "var twoSum = function(a, b) \x7b\x7d"
        [] (.int 0) none).2 = ⟨true, false⟩ :=
  (C8_cleanup_amended fnfJsRuntime "var twoSum = function(a, b) \x7b\x7d"
    [] (.int 0) none fnfTsRuntime "x").2.2.2.2.1 rfl ⟨"twoSum", rfl⟩ rfl

/-- C9: every TestResult produced by the orchestrator's `run_test_case`,
the Python adapter, the JavaScript adapter or the TypeScript adapter —
and hence every TestResult collected into a verification report —
satisfies the invariant that a non-null error implies `passed = false`. -/
theorem C9_error_implies_failed :
    (∀ (Cls Mth : Type) (R : Verifier.PyRuntime Cls Mth) (code : String)
        (args : List Value) (exp : Value) (t? : Option Nat),
      ( Verifier.run_test_case R code args exp t?).error ≠ none →
      ( Verifier.run_test_case R code args exp t?).passed = false)
    ∧ (∀ (Cls Mth : Type) (R : Verifier.PyRuntime Cls Mth) (code : String)
        (args : List Value) (exp : Value) (t? : Option Nat),
      ( PythonLanguage.run_test_case R code args exp t?).error ≠ none →
      ( PythonLanguage.run_test_case R code args exp t?).passed = false)
    ∧ (∀ (J : Langs.JsRuntime) (code : String) (args : List Value)
        (exp : Value) (t? : Option Nat),
      ( Langs.jsRunTestCase J code args exp t?).1.error ≠ none →
      ( Langs.jsRunTestCase J code args exp t?).1.passed = false)
    ∧ (∀ (code : String) (args : List Value) (exp : Value) (t? : Option Nat),
      ( Langs.tsRunTestCase code args exp t?).error ≠ none →
      ( Langs.tsRunTestCase code args exp t?).passed = false)
    ∧ (∀ (Cls Mth : Type) (R : Verifier.PyRuntime Cls Mth) (code : String)
        (tcs : List String) (exs : List Verifier.Example)
        (eo : Option (List Value)),
      ∀ tr ∈ ( Verifier.run_test_cases R code tcs exs eo).test_results,
        tr.error ≠ none → tr.passed = false) := by
  refine ⟨?_, ?_, ?_, ?_, ?_⟩
  · intro Cls Mth R code args exp t?
    exact Verifier.run_test_case_error_failed R code args exp t?
  · intro Cls Mth R code args exp t? h
    rw [python_run_eq_verifier_run] at h ⊢
    exact Verifier.run_test_case_error_failed R code args exp t? h
  · intro J code args exp t? h
    rcases Langs.jsRun_shape J code args exp t? with h0 | h0
    · exact absurd h0 h
    · exact h0
  · intro code args exp t? _
    rfl
  · intro Cls Mth R code tcs exs eo tr htr
    by_cases hs : ( Verifier.check_syntax R code).valid
    · have hbase : ∀ t ∈ (⟨[], [], 0, 0⟩ : Verifier.RunState).results,
          (t.error ≠ none → t.passed = false) := by
        intro t ht
        simp at ht
      have hP : ∀ args exp,
          (( Verifier.run_test_case R code args exp).error ≠ none →
            ( Verifier.run_test_case R code args exp).passed = false) :=
        fun args exp => Verifier.run_test_case_error_failed R code args exp none
      have hex := Verifier.foldPreserve_examples R code
        (fun t => t.error ≠ none → t.passed = false) hP exs ⟨[], [], 0, 0⟩ hbase
      cases he : (eo.getD []).isEmpty with
      | true =>
        simp only [Verifier.run_test_cases, hs, Bool.not_true,
          Bool.false_eq_true, if_false, he, Bool.not_true, Bool.false_and,
          if_false] at htr
        exact hex tr htr
      | false =>
        cases htc : tcs.isEmpty with
        | true =>
          simp only [Verifier.run_test_cases, hs, Bool.not_true,
            Bool.false_eq_true, if_false, he, htc, Bool.not_false,
            Bool.and_false, if_false] at htr
          exact hex tr htr
        | false =>
          by_cases hn : 0 < R.count_method_params code
          · simp only [Verifier.run_test_cases, hs, Bool.not_true,
              Bool.false_eq_true, if_false, he, htc, Bool.not_false,
              Bool.and_self, if_true, hn] at htr
            exact Verifier.foldPreserve_chunks R code
              (fun t => t.error ≠ none → t.passed = false) hP _ _ hex tr htr
          · simp only [Verifier.run_test_cases, hs, Bool.not_true,
              Bool.false_eq_true, if_false, he, htc, Bool.not_false,
              Bool.and_self, if_true, hn, if_false] at htr
            exact hex tr htr
    · have hs' : ( Verifier.check_syntax R code).valid = false := by
        simpa using hs
      simp [Verifier.run_test_cases, hs'] at htr

/-- Witness for C9: the TypeScript stub's TestResult has a non-null error
and the invariant yields `passed = false` there. -/
theorem C9_error_implies_failed_witness :
    ( Langs.tsRunTestCase "x" [] (.int 0) none).error ≠ none
    ∧ ( Langs.tsRunTestCase "x" [] (.int 0) none).passed = false :=
  ⟨by simp [Langs.tsRunTestCase],
    C9_error_implies_failed.2.2.2.1 "x" [] (.int 0) none
      (by simp [Langs.tsRunTestCase])⟩

/-- C10: the TypeScript adapter's `run_test_case` is a stub — for every
source, argument list, expected output and timeout it returns the same
failing TestResult with `actual = None` and the not-yet-implemented error
message, so no TypeScript verification can ever report a passing test. -/
theorem C10_typescript_stub (code : String) (args : List Value) (exp : Value)
    (t? : Option Nat) :
    Langs.tsRunTestCase code args exp t? =
      { passed := false, input_args := args, expected := exp,
        actual := .null,
        error := some (.str "TypeScript test execution not yet implemented") } :=
  rfl

end AlgoAtlas
